import Mathlib

/-!
Shallow embedding of the helm-browser multiplex daemon

This file embeds the daemon core of the helm-browser repository
(`daemon/state.ts`, `daemon/handlers.ts`, `daemon/server.ts`,
`daemon/chrome.ts`, `shared/config.ts`) as pure Lean functions on an
explicit `DaemonState`, and proves properties of the router, session
registry and correlation logic against it.

Conventions of the embedding:

* JavaScript `Map`s become association lists with `Map.set` / `Map.get` /
  `Map.delete` semantics (`mapSet`, `mapLookup`, `mapDelete`); the JS `Set`
  `windowCache` becomes a `List String` with set semantics.
* WebSocket handles become connection ids (`Nat`).  Sends become `Effect`
  values accumulated in an output list instead of I/O.
* `async`/`await` code is decomposed at its suspension points: each promise
  continuation that the daemon stores in `pendingRequests` is encoded in
  `PendingKind`, and the `setTimeout` timeout callback and message arrivals
  are separate atomic steps, mirroring the single-threaded event loop.
* Wall-clock time is an explicit `now : Nat` parameter (milliseconds).
* JS truthiness checks on `windowId` (`session?.windowId`,
  `result?.windowId`, `s.windowId ? … : …`) are modelled by
  `windowIdTruthy`, which is false for `none` and for `some 0`.
-/

namespace Helm

/-! Section: `shared/config.ts` constants -/

def REQUEST_TIMEOUT_MS : Nat := 30000

def EXTENSION_CONNECT_TIMEOUT_MS : Nat := 15000

def CLIENT_KEEPALIVE_TIMEOUT_MS : Nat := 60000

/-- Embeds `server.ts`: the stale-client sweeper interval,
`CLIENT_KEEPALIVE_TIMEOUT_MS / 2`. -/
def staleCheckIntervalMs : Nat := CLIENT_KEEPALIVE_TIMEOUT_MS / 2

def EXTENSION_PING_INTERVAL_MS : Nat := 25000

/-! Section: Association-list maps with JS `Map` semantics -/

/-- Embeds `Map.get` -/
def mapLookup {β : Type} (k : String) : List (String × β) → Option β
  | [] => none
  | (k', v) :: rest => if k' = k then some v else mapLookup k rest

/-- Embeds `Map.set` (replace existing binding, else add) -/
def mapSet {β : Type} (k : String) (v : β) (m : List (String × β)) :
    List (String × β) :=
  (k, v) :: m.filter (fun p => p.1 ≠ k)

/-- Embeds `Map.delete` -/
def mapDelete {β : Type} (k : String) (m : List (String × β)) :
    List (String × β) :=
  m.filter (fun p => p.1 ≠ k)

/-! Section: Data model -/

/-- Command parameters.  Only the `sessionId` field is ever inspected or
written by the daemon (`{ ...params, sessionId }` in
`sendCommandToExtension`); the rest of the JSON object is opaque. -/
structure Params where
  sessionId : Option String := none
  rest : String := ""
deriving Repr, DecidableEq

/-- A payload arriving from the extension (`route_result.payload` /
`error.payload`).  The daemon reads `payload.windowId` (window creation)
and `payload.message` (errors); the rest is opaque and forwarded verbatim. -/
structure ExtPayload where
  windowId : Option Nat := none
  message : Option String := none
  data : String := ""
deriving Repr, DecidableEq

/-- Embeds `ClientSession` of `daemon/state.ts`. -/
structure Session where
  label : String
  connId : Nat
  windowId : Option Nat
  registeredAt : Nat
  lastSeen : Nat
deriving Repr, DecidableEq

/-- JS truthiness of a `windowId` value (`null` and `0` are falsy). -/
def windowIdTruthy : Option Nat → Bool
  | none => false
  | some w => w ≠ 0

/-- The continuation stored with a pending request: which `await` in
`handleCommand` is suspended on it.  `createWindow` carries the client
command to forward after lazy window creation succeeds. -/
inductive PendingKind where
  | createWindow (clientReqId : String) (clientConn : Nat)
      (command : String) (params : Params)
  | forward (clientReqId : String) (clientConn : Nat)
deriving Repr, DecidableEq

/-- Embeds `PendingRequest` of `daemon/state.ts` (resolve/reject closures are
encoded by `kind`; the timer handle is implicit: the timeout step is only
enabled while the entry is live, because every deletion site calls
`clearTimeout`). -/
structure PendingRequest where
  sessionId : String
  kind : PendingKind
deriving Repr, DecidableEq

/-- Embeds `ExtensionConnection` of `daemon/state.ts`. -/
structure ExtensionConnection where
  connId : Nat
  profileId : String
  connectedAt : Nat
deriving Repr, DecidableEq

/-- The daemon's module-level mutable state (`daemon/state.ts`). -/
structure DaemonState where
  clientSessions : List (String × Session)
  windowCache : List String
  tabRouting : List (Nat × String)
  pendingRequests : List (String × PendingRequest)
  extensionConnection : Option ExtensionConnection
  requestIdCounter : Nat
deriving Repr, DecidableEq

/-- A session view entry as produced by `getSessionList`. -/
structure SessionView where
  sessionId : String
  label : String
  windowId : Option Nat
  lastSeen : Nat
  status : String
deriving Repr, DecidableEq

/-! Section: Emitted messages and effects -/

/-- Daemon → client wire messages. -/
inductive ClientOut where
  | registered (sessionId : String) (success : Bool)
  | response (reqId : String) (sessionId : String) (payload : ExtPayload)
  | err (reqId : String) (sessionId : String) (code : String) (msg : String)
deriving Repr, DecidableEq

/-- Daemon → extension wire messages. -/
inductive ExtOut where
  | welcome (serverId : String) (protocolVersion : Nat)
      (sessions : List SessionView)
  | sessionsMsg (sessions : List SessionView) (tabRouting : List (Nat × String))
  | route (reqId : String) (sessionId : String) (command : String)
      (params : Params)
  | ping
deriving Repr, DecidableEq

/-- Observable side effects of one event-loop step. -/
inductive Effect where
  | toClient (connId : Nat) (msg : ClientOut)
  | toExt (msg : ExtOut)
  | closeConn (connId : Nat) (code : Nat) (reason : String)
deriving Repr, DecidableEq

/-! Section: `daemon/state.ts` functions -/

/-- Embeds `generateRequestId` (the `Date.now().toString(36)` suffix is modelled
by the decimal `now`). -/
def generateRequestId (counter : Nat) (now : Nat) : String :=
  "req_" ++ toString (counter + 1) ++ "_" ++ toString now

/-- Embeds `registerClient` -/
def registerClient (st : DaemonState) (sessionId label : String)
    (connId now : Nat) : DaemonState :=
  let s : Session :=
    { label := label, connId := connId, windowId := none,
      registeredAt := now, lastSeen := now }
  { st with clientSessions := mapSet sessionId s st.clientSessions }

/-- Embeds `unregisterClient`: removes the session, its window-cache entry and
every tab route pointing at it.  (It does not touch `pendingRequests`.) -/
def unregisterClient (st : DaemonState) (sessionId : String) : DaemonState :=
  match mapLookup sessionId st.clientSessions with
  | none => st
  | some _ =>
      { st with
        clientSessions := mapDelete sessionId st.clientSessions,
        windowCache := st.windowCache.filter (fun s => s ≠ sessionId),
        tabRouting := st.tabRouting.filter (fun p => p.2 ≠ sessionId) }

/-- Embeds `updateClientLastSeen` -/
def updateClientLastSeen (st : DaemonState) (sessionId : String)
    (now : Nat) : DaemonState :=
  match mapLookup sessionId st.clientSessions with
  | none => st
  | some s =>
      { st with clientSessions :=
          mapSet sessionId ({ s with lastSeen := now }) st.clientSessions }

/-- Embeds `setClientWindowId`: sets the session's `windowId`; adds the session to
`windowCache` only when the new id is non-null (there is no removal on
`null`). -/
def setClientWindowId (st : DaemonState) (sessionId : String)
    (windowId : Option Nat) : DaemonState :=
  match mapLookup sessionId st.clientSessions with
  | none => st
  | some s =>
      let s' : Session := { s with windowId := windowId }
      let st' := { st with clientSessions := mapSet sessionId s' st.clientSessions }
      match windowId with
      | some _ =>
          let cache :=
            if st'.windowCache.contains sessionId then st'.windowCache
            else sessionId :: st'.windowCache
          { st' with windowCache := cache }
      | none => st'

/-- Embeds `getSessionList` -/
def getSessionList (st : DaemonState) : List SessionView :=
  st.clientSessions.map (fun p =>
    { sessionId := p.1, label := p.2.label, windowId := p.2.windowId,
      lastSeen := p.2.lastSeen,
      status := if windowIdTruthy p.2.windowId then "ready" else "pending" })

/-- Embeds `clearAllWindowIds`: null every session's `windowId`, empty the window
cache and the tab-routing map. -/
def clearAllWindowIds (st : DaemonState) : DaemonState :=
  { st with
    clientSessions :=
      st.clientSessions.map (fun p => (p.1, { p.2 with windowId := none })),
    windowCache := [],
    tabRouting := [] }

/-! Section: `shared/config.ts` / `server.ts` wire constants -/

def WS_PORT : Nat := 9876

def PROTOCOL_VERSION : Nat := 3

/-! Section: `daemon/handlers.ts` -/

/-- Embeds `sendToExtension`: emit to the bound extension connection, silently a
no-op when none is bound. -/
def sendToExtension (st : DaemonState) (m : ExtOut) : List Effect :=
  match st.extensionConnection with
  | some _ => [Effect.toExt m]
  | none => []

/-- Embeds `broadcastSessionsToExtension` -/
def broadcastSessionsToExtension (st : DaemonState) : List Effect :=
  match st.extensionConnection with
  | some _ => [Effect.toExt (ExtOut.sessionsMsg (getSessionList st) st.tabRouting)]
  | none => []

/-- Rejecting a pending request runs the suspended `catch` continuation of
`handleCommand`: a rejected forward becomes a `COMMAND_FAILED` error to the
client, a rejected lazy `create_window` becomes `WINDOW_CREATION_FAILED`. -/
def rejectPendingEffects (p : PendingRequest) (msg : String) : List Effect :=
  match p.kind with
  | PendingKind.forward clientReqId clientConn =>
      [Effect.toClient clientConn
        (ClientOut.err clientReqId p.sessionId "COMMAND_FAILED" msg)]
  | PendingKind.createWindow clientReqId clientConn _ _ =>
      [Effect.toClient clientConn
        (ClientOut.err clientReqId p.sessionId "WINDOW_CREATION_FAILED" msg)]

/-- Embeds `sendCommandToExtension`: allocate a request id, store the pending
request (its timeout timer is the separate `timeoutFire` step), inject the
`sessionId` into the params and forward a `route` to the extension.  When no
extension is bound the promise is rejected at once ("Extension not
connected"), which runs the caller's `catch` continuation. -/
def sendCommandToExtension (st : DaemonState) (now : Nat) (command : String)
    (params : Params) (sessionId : String) (kind : PendingKind) :
    DaemonState × List Effect :=
  match st.extensionConnection with
  | none => (st, rejectPendingEffects { sessionId := sessionId, kind := kind }
      "Extension not connected")
  | some _ =>
      let reqId := generateRequestId st.requestIdCounter now
      let pending : PendingRequest := { sessionId := sessionId, kind := kind }
      let st' :=
        { st with
          requestIdCounter := st.requestIdCounter + 1,
          pendingRequests := mapSet reqId pending st.pendingRequests }
      let paramsWithSession : Params := { params with sessionId := some sessionId }
      (st', [Effect.toExt (ExtOut.route reqId sessionId command paramsWithSession)])

/-- Resolving a pending request runs the suspended `await` continuation of
`handleCommand`.  A resolved forward sends the payload back as a `response`.
A resolved lazy `create_window` checks `result?.windowId` (JS truthiness),
records the window (`setClientWindowId`) and then forwards the original
client command via `sendCommandToExtension`; a falsy `windowId` throws into
the `catch`, producing `WINDOW_CREATION_FAILED`. -/
def resolvePending (st : DaemonState) (now : Nat) (p : PendingRequest)
    (payload : ExtPayload) : DaemonState × List Effect :=
  match p.kind with
  | PendingKind.forward clientReqId clientConn =>
      (st, [Effect.toClient clientConn
        (ClientOut.response clientReqId p.sessionId payload)])
  | PendingKind.createWindow clientReqId clientConn command params =>
      if windowIdTruthy payload.windowId then
        let st' := setClientWindowId st p.sessionId payload.windowId
        sendCommandToExtension st' now command params p.sessionId
          (PendingKind.forward clientReqId clientConn)
      else
        (st, [Effect.toClient clientConn
          (ClientOut.err clientReqId p.sessionId "WINDOW_CREATION_FAILED"
            "Window creation failed: no windowId returned")])

/-- Embeds `handleRouteResult` (also reached for extension `error` messages via
`handleExtensionError`, with `isError = true`): look the pending request up
by `reqId` alone, remove it, then resolve or reject.  An absent or unknown
`reqId` has no effect. -/
def handleRouteResult (st : DaemonState) (now : Nat) (reqId : Option String)
    (isError : Bool) (payload : ExtPayload) : DaemonState × List Effect :=
  match reqId with
  | none => (st, [])
  | some rid =>
      match mapLookup rid st.pendingRequests with
      | none => (st, [])
      | some p =>
          let st' := { st with pendingRequests := mapDelete rid st.pendingRequests }
          if isError then
            (st', rejectPendingEffects p (payload.message.getD "Unknown error"))
          else
            resolvePending st' now p payload

/-- The `setTimeout` callback registered in `sendCommandToExtension`, firing
`REQUEST_TIMEOUT_MS` after the forward: delete the pending request and
reject it with "Request timed out".  The timer is cancelled
(`clearTimeout`) at every site that removes the entry, so the step is only
enabled while the entry is live. -/
def timeoutFire (st : DaemonState) (reqId : String) : DaemonState × List Effect :=
  match mapLookup reqId st.pendingRequests with
  | none => (st, [])
  | some p =>
      ({ st with pendingRequests := mapDelete reqId st.pendingRequests },
       rejectPendingEffects p "Request timed out")

/-- Embeds `handleRegister` -/
def handleRegister (st : DaemonState) (sessionId label : String)
    (connId now : Nat) : DaemonState × List Effect :=
  let st' := registerClient st sessionId label connId now
  (st', Effect.toClient connId (ClientOut.registered sessionId true)
          :: broadcastSessionsToExtension st')

/-- Embeds `handleUnregister`: when the session has a truthy `windowId` and an
extension is bound, fire-and-forget a `close_window` route (a fresh request
id is consumed but no pending request is stored); then `unregisterClient`
and rebroadcast. -/
def handleUnregister (st : DaemonState) (sessionId : String) (now : Nat) :
    DaemonState × List Effect :=
  let hasWindow :=
    match mapLookup sessionId st.clientSessions with
    | some s => windowIdTruthy s.windowId
    | none => false
  let (st1, closeFx) :=
    if hasWindow && st.extensionConnection.isSome then
      let rid := generateRequestId st.requestIdCounter now
      ({ st with requestIdCounter := st.requestIdCounter + 1 },
       sendToExtension st
         (ExtOut.route rid sessionId "close_window" { sessionId := some sessionId }))
    else (st, [])
  let st2 := unregisterClient st1 sessionId
  (st2, closeFx ++ broadcastSessionsToExtension st2)

/-- The body of `handleCommand` once the extension-connected precondition
holds: lazy window creation when the session is not in `windowCache`, else
direct forward.  Each branch suspends on the pending request it registers. -/
def handleCommandConnected (st : DaemonState) (now : Nat)
    (reqId sessionId command : String) (params : Params) (clientConn : Nat) :
    DaemonState × List Effect :=
  if st.windowCache.contains sessionId then
    sendCommandToExtension st now command params sessionId
      (PendingKind.forward reqId clientConn)
  else
    sendCommandToExtension st now "create_window" { sessionId := some sessionId }
      sessionId (PendingKind.createWindow reqId clientConn command params)

/-- Embeds `handleCommand`.  When no extension is bound it awaits
`ensureExtensionConnected`; `ensureConnected` is that call's outcome.  On
`false` the client gets `EXTENSION_NOT_CONNECTED` and nothing is forwarded;
on `true` the handler resumes with the command body (in the running daemon
the resumption state also reflects the interleaved `hello` step). -/
def handleCommand (st : DaemonState) (now : Nat)
    (reqId sessionId command : String) (params : Params) (clientConn : Nat)
    (ensureConnected : Bool) : DaemonState × List Effect :=
  match st.extensionConnection with
  | some _ => handleCommandConnected st now reqId sessionId command params clientConn
  | none =>
      if ensureConnected then
        handleCommandConnected st now reqId sessionId command params clientConn
      else
        (st, [Effect.toClient clientConn
          (ClientOut.err reqId sessionId "EXTENSION_NOT_CONNECTED"
            "Extension not connected and Chrome failed to start")])

/-- Embeds `handleTabClosed` (accepts `payload.tabId` or top-level `tabId`). -/
def handleTabClosed (st : DaemonState) (tabId : Option Nat) : DaemonState :=
  match tabId with
  | some tid =>
      if (st.tabRouting.map Prod.fst).contains tid then
        { st with tabRouting := st.tabRouting.filter (fun p => p.1 ≠ tid) }
      else st
  | none => st

/-- Embeds `handleWindowClosed`: clears the session's `windowId` via
`setClientWindowId(sessionId, null)`. -/
def handleWindowClosed (st : DaemonState) (sessionId : Option String) : DaemonState :=
  match sessionId with
  | some sid => setClientWindowId st sid none
  | none => st

/-- Embeds `handleExtensionHello`: clear all window ids (they are invalid after a
browser restart), bind the connection, send `welcome`, rebroadcast. -/
def handleExtensionHello (st : DaemonState) (connId : Nat)
    (profileId : Option String) (now : Nat) : DaemonState × List Effect :=
  let st1 := clearAllWindowIds st
  let conn : ExtensionConnection :=
    { connId := connId, profileId := profileId.getD "default", connectedAt := now }
  let st2 := { st1 with extensionConnection := some conn }
  let welcome :=
    ExtOut.welcome ("helm-daemon-" ++ toString WS_PORT) PROTOCOL_VERSION
      (getSessionList st2)
  (st2, sendToExtension st2 welcome ++ broadcastSessionsToExtension st2)

/-! Section: `daemon/chrome.ts` -/

/-- Embeds `ensureExtensionConnected`, with its asynchronous parts abstracted to
their outcomes: `chromeStarted` is the result of `startChrome()` and
`connectsWithinTimeout` says whether the 500 ms polling loop observes a
bound extension within `EXTENSION_CONNECT_TIMEOUT_MS`. -/
def ensureExtensionConnected (alreadyConnected chromeStarted
    connectsWithinTimeout : Bool) : Bool :=
  if alreadyConnected then true
  else if !chromeStarted then false
  else connectsWithinTimeout

/-! Section: `daemon/server.ts` -/

/-- Inbound wire messages, as discriminated by the server's `message`
handler. -/
inductive InMsg where
  | hello (profileId : Option String)
  | register (sessionId label : String)
  | unregister (sessionId : String)
  | command (reqId sessionId command : String) (params : Params)
  | keepalive (sessionId : String)
  | routeResult (reqId : Option String) (payload : ExtPayload)
  | errorMsg (reqId : Option String) (payload : ExtPayload)
  | tabClosed (tabId : Option Nat)
  | windowClosed (sessionId : Option String)
deriving Repr, DecidableEq

/-- The server's `websocket.message` dispatcher.  `hello` is guarded by the
duplicate-extension check (close code 4000 on a different connection);
client-typed messages go to `handleClientMessage`; `route_result`, `error`
and `tab_closed` go to `handleExtensionMessage`; `window_closed` reaches
`handleExtensionMessage` through the content-based fallback branch. -/
def wsMessage (st : DaemonState) (connId now : Nat) (m : InMsg)
    (ensureConnected : Bool) : DaemonState × List Effect :=
  match m with
  | InMsg.hello profileId =>
      match st.extensionConnection with
      | some ec =>
          if ec.connId ≠ connId then
            (st, [Effect.closeConn connId 4000 "Extension already connected"])
          else
            handleExtensionHello st connId profileId now
      | none => handleExtensionHello st connId profileId now
  | InMsg.register sessionId label => handleRegister st sessionId label connId now
  | InMsg.unregister sessionId => handleUnregister st sessionId now
  | InMsg.command reqId sessionId command params =>
      handleCommand st now reqId sessionId command params connId ensureConnected
  | InMsg.keepalive sessionId => (updateClientLastSeen st sessionId now, [])
  | InMsg.routeResult reqId payload => handleRouteResult st now reqId false payload
  | InMsg.errorMsg reqId payload => handleRouteResult st now reqId true payload
  | InMsg.tabClosed tabId => (handleTabClosed st tabId, [])
  | InMsg.windowClosed sessionId => (handleWindowClosed st sessionId, [])

/-- The server's `websocket.close` handler.  If the closing connection is
the bound extension: reject every pending request ("Extension
disconnected"), clear the pending table, unbind.  Otherwise unregister
the first client session owning this connection. -/
def wsClose (st : DaemonState) (connId : Nat) : DaemonState × List Effect :=
  let clientPath : DaemonState × List Effect :=
    match st.clientSessions.find? (fun p => p.2.connId = connId) with
    | some (sid, _) => (unregisterClient st sid, [])
    | none => (st, [])
  match st.extensionConnection with
  | some ec =>
      if ec.connId = connId then
        let fx := (st.pendingRequests.map
          (fun p => rejectPendingEffects p.2 "Extension disconnected")).flatten
        ({ st with pendingRequests := [], extensionConnection := none }, fx)
      else clientPath
  | none => clientPath

/-- One iteration of the stale-client sweeper loop: unregister the session
when its `lastSeen` is older than `CLIENT_KEEPALIVE_TIMEOUT_MS`. -/
def sweepStep (now : Nat) (acc : DaemonState) (e : String × Session) : DaemonState :=
  if now - e.2.lastSeen > CLIENT_KEEPALIVE_TIMEOUT_MS then unregisterClient acc e.1
  else acc

/-- One tick of the stale-client sweeper (`staleCheckInterval` body):
unregister every session whose `lastSeen` is older than
`CLIENT_KEEPALIVE_TIMEOUT_MS`.  The body only calls `unregisterClient`
(and logs), so it emits no wire messages. -/
def staleSweep (st : DaemonState) (now : Nat) : DaemonState × List Effect :=
  (st.clientSessions.foldl (sweepStep now) st, [])

/-! Section: Map lemmas -/

theorem mapLookup_mapDelete_self {β : Type} (k : String) (m : List (String × β)) :
    mapLookup k (mapDelete k m) = none := by
  induction m with
  | nil => rfl
  | cons hd tl ih =>
      by_cases h : hd.1 = k
      · simpa [mapDelete, List.filter_cons, h] using ih
      · simpa [mapDelete, List.filter_cons, h, mapLookup] using ih

theorem mapLookup_mapDelete_ne {β : Type} {k' k : String} (m : List (String × β))
    (h : k' ≠ k) : mapLookup k (mapDelete k' m) = mapLookup k m := by
  induction m with
  | nil => rfl
  | cons hd tl ih =>
      simp only [mapDelete, decide_not] at ih ⊢
      by_cases h1 : hd.1 = k'
      · have h2 : hd.1 ≠ k := by rw [h1]; exact h
        simp [List.filter_cons, h1, mapLookup, h2, h, ih]
      · by_cases h2 : hd.1 = k
        · simp [List.filter_cons, h1, mapLookup, h2, Ne.symm h]
        · simp [List.filter_cons, h1, mapLookup, h2, ih]

theorem mapLookup_filter_none {β : Type} {k : String} {m : List (String × β)}
    (p : String × β → Bool) (h : mapLookup k m = none) :
    mapLookup k (m.filter p) = none := by
  induction m with
  | nil => rfl
  | cons hd tl ih =>
      by_cases h1 : hd.1 = k
      · simp [mapLookup, h1] at h
      · simp only [mapLookup, h1, if_neg h1] at h
        by_cases h2 : p hd
        · simp [List.filter_cons, h2, mapLookup, h1, ih h]
        · simp [List.filter_cons, h2, ih h]

theorem mapLookup_map_value {β γ : Type} (k : String) (g : β → γ)
    (m : List (String × β)) :
    mapLookup k (m.map (fun p => (p.1, g p.2))) = (mapLookup k m).map g := by
  induction m with
  | nil => rfl
  | cons hd tl ih =>
      by_cases h : hd.1 = k
      · simp [mapLookup, h]
      · simp [mapLookup, h, ih]

theorem mapLookup_mem {β : Type} {k : String} {m : List (String × β)} {v : β}
    (h : mapLookup k m = some v) : (k, v) ∈ m := by
  induction m with
  | nil => simp [mapLookup] at h
  | cons hd tl ih =>
      cases hd with
      | mk k0 v0 =>
        by_cases h1 : k0 = k
        · subst h1
          simp [mapLookup] at h
          subst h
          exact List.mem_cons_self _ _
        · simp only [mapLookup, if_neg h1] at h
          exact List.mem_cons_of_mem _ (ih h)

theorem all_filter_self {α : Type} (p : α → Bool) (l : List α) :
    (l.filter p).all p = true := by
  induction l with
  | nil => rfl
  | cons hd tl ih =>
      by_cases h : p hd
      · simp [List.filter_cons, h, ih]
      · simp [List.filter_cons, h, ih]

theorem all_filter_of_all {α : Type} {p : α → Bool} (q : α → Bool) {l : List α}
    (h : l.all p = true) : (l.filter q).all p = true := by
  simp only [List.all_eq_true] at *
  intro x hx
  exact h x (List.mem_of_mem_filter hx)

/-! Section: `unregisterClient` and sweeper lemmas -/

theorem unregisterClient_pendingRequests (st : DaemonState) (x : String) :
    (unregisterClient st x).pendingRequests = st.pendingRequests := by
  unfold unregisterClient
  cases mapLookup x st.clientSessions <;> rfl

theorem unregisterClient_lookup_self (st : DaemonState) (x : String) :
    mapLookup x (unregisterClient st x).clientSessions = none := by
  unfold unregisterClient
  cases hx : mapLookup x st.clientSessions
  · simpa using hx
  · simpa [mapDelete] using mapLookup_mapDelete_self x st.clientSessions

theorem unregisterClient_lookup_ne (st : DaemonState) {x k : String} (h : x ≠ k) :
    mapLookup k (unregisterClient st x).clientSessions =
      mapLookup k st.clientSessions := by
  unfold unregisterClient
  cases hx : mapLookup x st.clientSessions
  · rfl
  · exact mapLookup_mapDelete_ne _ h

theorem unregisterClient_lookup_none_pres (st : DaemonState) (x : String)
    {k : String} (h : mapLookup k st.clientSessions = none) :
    mapLookup k (unregisterClient st x).clientSessions = none := by
  unfold unregisterClient
  cases hx : mapLookup x st.clientSessions
  · exact h
  · exact mapLookup_filter_none _ h

theorem unregisterClient_tab_pres (st : DaemonState) (x : String) {sid : String}
    (h : st.tabRouting.all (fun p => p.2 ≠ sid) = true) :
    (unregisterClient st x).tabRouting.all (fun p => p.2 ≠ sid) = true := by
  unfold unregisterClient
  cases mapLookup x st.clientSessions
  · exact h
  · exact all_filter_of_all _ h

theorem unregisterClient_tab_self (st : DaemonState) {sid : String}
    (h : (mapLookup sid st.clientSessions).isSome = true) :
    (unregisterClient st sid).tabRouting.all (fun p => p.2 ≠ sid) = true := by
  unfold unregisterClient
  cases hx : mapLookup sid st.clientSessions
  · rw [hx] at h; simp at h
  · exact all_filter_self _ _

theorem sweepFold_pendingRequests (now : Nat) (l : List (String × Session)) :
    ∀ acc : DaemonState,
      (l.foldl (sweepStep now) acc).pendingRequests = acc.pendingRequests := by
  induction l with
  | nil => intro acc; rfl
  | cons hd tl ih =>
      intro acc
      rw [List.foldl_cons, ih]
      unfold sweepStep
      by_cases h : now - hd.2.lastSeen > CLIENT_KEEPALIVE_TIMEOUT_MS
      · simp [h, unregisterClient_pendingRequests]
      · simp [h]

theorem sweepFold_lookup_none (now : Nat) (l : List (String × Session))
    {sid : String} :
    ∀ acc : DaemonState, mapLookup sid acc.clientSessions = none →
      mapLookup sid ((l.foldl (sweepStep now) acc)).clientSessions = none := by
  induction l with
  | nil => intro acc h; exact h
  | cons hd tl ih =>
      intro acc h
      rw [List.foldl_cons]
      apply ih
      unfold sweepStep
      by_cases hs : now - hd.2.lastSeen > CLIENT_KEEPALIVE_TIMEOUT_MS
      · simpa [hs] using unregisterClient_lookup_none_pres acc hd.1 h
      · simpa [hs] using h

theorem sweepFold_removes (now : Nat) (l : List (String × Session))
    {sid : String} {s : Session} :
    ∀ acc : DaemonState, (sid, s) ∈ l →
      now - s.lastSeen > CLIENT_KEEPALIVE_TIMEOUT_MS →
      mapLookup sid ((l.foldl (sweepStep now) acc)).clientSessions = none := by
  induction l with
  | nil => intro acc hm; simp at hm
  | cons hd tl ih =>
      intro acc hm hstale
      rcases List.mem_cons.mp hm with heq | hmem
      · rw [List.foldl_cons]
        apply sweepFold_lookup_none
        unfold sweepStep
        rw [← heq]
        simp only [hstale, if_pos]
        exact unregisterClient_lookup_self acc sid
      · exact ih _ hmem hstale

theorem sweepFold_tab_pres (now : Nat) (l : List (String × Session))
    {sid : String} :
    ∀ acc : DaemonState, acc.tabRouting.all (fun p => p.2 ≠ sid) = true →
      (l.foldl (sweepStep now) acc).tabRouting.all (fun p => p.2 ≠ sid) = true := by
  induction l with
  | nil => intro acc h; exact h
  | cons hd tl ih =>
      intro acc h
      rw [List.foldl_cons]
      apply ih
      unfold sweepStep
      by_cases hs : now - hd.2.lastSeen > CLIENT_KEEPALIVE_TIMEOUT_MS
      · simpa [hs] using unregisterClient_tab_pres acc hd.1 h
      · simpa [hs] using h

theorem sweepFold_tab_removes (now : Nat) (l : List (String × Session))
    {sid : String} {s : Session} :
    ∀ acc : DaemonState, (sid, s) ∈ l →
      now - s.lastSeen > CLIENT_KEEPALIVE_TIMEOUT_MS →
      (∀ s', (sid, s') ∈ l → s' = s) →
      (mapLookup sid acc.clientSessions).isSome = true →
      (l.foldl (sweepStep now) acc).tabRouting.all (fun p => p.2 ≠ sid) = true := by
  induction l with
  | nil => intro acc hm; simp at hm
  | cons hd tl ih =>
      intro acc hm hstale huniq hsome
      rw [List.foldl_cons]
      by_cases hk : hd.1 = sid
      · have h2 : hd.2 = s := by
          apply huniq
          rw [← hk]
          exact List.mem_cons_self _ _
        apply sweepFold_tab_pres
        unfold sweepStep
        rw [h2]
        simp only [hstale, if_pos]
        rw [hk]
        exact unregisterClient_tab_self acc hsome
      · have hmem : (sid, s) ∈ tl := by
          rcases List.mem_cons.mp hm with heq | hmem
          · exact absurd (by rw [← heq]) hk
          · exact hmem
        apply ih _ hmem hstale
        · intro s' hs'
          exact huniq s' (List.mem_cons_of_mem _ hs')
        · unfold sweepStep
          by_cases hs : now - hd.2.lastSeen > CLIENT_KEEPALIVE_TIMEOUT_MS
          · rw [if_pos hs, unregisterClient_lookup_ne acc hk]
            exact hsome
          · rw [if_neg hs]
            exact hsome

theorem unregisterClient_cache_pres (st : DaemonState) (x : String)
    {sid : String} (h : st.windowCache.all (fun c => c ≠ sid) = true) :
    (unregisterClient st x).windowCache.all (fun c => c ≠ sid) = true := by
  unfold unregisterClient
  cases mapLookup x st.clientSessions
  · exact h
  · exact all_filter_of_all _ h

theorem unregisterClient_cache_self (st : DaemonState) {sid : String}
    (h : (mapLookup sid st.clientSessions).isSome = true) :
    (unregisterClient st sid).windowCache.all (fun c => c ≠ sid) = true := by
  unfold unregisterClient
  cases hx : mapLookup sid st.clientSessions
  · rw [hx] at h; simp at h
  · exact all_filter_self _ _

theorem sweepFold_cache_pres (now : Nat) (l : List (String × Session))
    {sid : String} :
    ∀ acc : DaemonState, acc.windowCache.all (fun c => c ≠ sid) = true →
      (l.foldl (sweepStep now) acc).windowCache.all (fun c => c ≠ sid) = true := by
  induction l with
  | nil => intro acc h; exact h
  | cons hd tl ih =>
      intro acc h
      rw [List.foldl_cons]
      apply ih
      unfold sweepStep
      by_cases hs : now - hd.2.lastSeen > CLIENT_KEEPALIVE_TIMEOUT_MS
      · simpa [hs] using unregisterClient_cache_pres acc hd.1 h
      · simpa [hs] using h

theorem sweepFold_cache_removes (now : Nat) (l : List (String × Session))
    {sid : String} {s : Session} :
    ∀ acc : DaemonState, (sid, s) ∈ l →
      now - s.lastSeen > CLIENT_KEEPALIVE_TIMEOUT_MS →
      (∀ s', (sid, s') ∈ l → s' = s) →
      (mapLookup sid acc.clientSessions).isSome = true →
      (l.foldl (sweepStep now) acc).windowCache.all (fun c => c ≠ sid) = true := by
  induction l with
  | nil => intro acc hm; simp at hm
  | cons hd tl ih =>
      intro acc hm hstale huniq hsome
      rw [List.foldl_cons]
      by_cases hk : hd.1 = sid
      · have h2 : hd.2 = s := by
          apply huniq
          rw [← hk]
          exact List.mem_cons_self _ _
        apply sweepFold_cache_pres
        unfold sweepStep
        rw [h2]
        simp only [hstale, if_pos]
        rw [hk]
        exact unregisterClient_cache_self acc hsome
      · have hmem : (sid, s) ∈ tl := by
          rcases List.mem_cons.mp hm with heq | hmem
          · exact absurd (by rw [← heq]) hk
          · exact hmem
        apply ih _ hmem hstale
        · intro s' hs'
          exact huniq s' (List.mem_cons_of_mem _ hs')
        · unfold sweepStep
          by_cases hs : now - hd.2.lastSeen > CLIENT_KEEPALIVE_TIMEOUT_MS
          · rw [if_pos hs, unregisterClient_lookup_ne acc hk]
            exact hsome
          · rw [if_neg hs]
            exact hsome

/-! Section: hello-handler lemmas -/

theorem hello_state_components (st : DaemonState) (c : Nat) (pid : Option String)
    (now : Nat) :
    ((handleExtensionHello st c pid now).1).windowCache = [] ∧
    ((handleExtensionHello st c pid now).1).tabRouting = [] ∧
    ((handleExtensionHello st c pid now).1).pendingRequests = st.pendingRequests ∧
    ((handleExtensionHello st c pid now).1).extensionConnection =
      some { connId := c, profileId := pid.getD "default", connectedAt := now } := by
  refine ⟨rfl, rfl, rfl, rfl⟩

theorem mapLookup_clearWindow (k : String) (m : List (String × Session)) :
    mapLookup k (m.map (fun p => (p.1, { p.2 with windowId := none }))) =
      (mapLookup k m).map (fun s => { s with windowId := none }) := by
  induction m with
  | nil => rfl
  | cons hd tl ih =>
      by_cases h : hd.1 = k
      · simp [mapLookup, h]
      · simp [mapLookup, h, ih]

theorem hello_windowId_none (st : DaemonState) (c : Nat) (pid : Option String)
    (now : Nat) {sid : String} {s : Session}
    (h : mapLookup sid ((handleExtensionHello st c pid now).1).clientSessions =
      some s) : s.windowId = none := by
  have hmap : ((handleExtensionHello st c pid now).1).clientSessions =
      st.clientSessions.map (fun p => (p.1, { p.2 with windowId := none })) := rfl
  rw [hmap, mapLookup_clearWindow] at h
  cases h0 : mapLookup sid st.clientSessions with
  | none => rw [h0] at h; simp at h
  | some s0 =>
      rw [h0] at h
      simp only [Option.map_some', Option.some.injEq] at h
      rw [← h]

theorem hello_next_command_creates (st : DaemonState) (c : Nat)
    (pid : Option String) (now now2 : Nat) (r sid cmd : String) (params : Params)
    (conn : Nat) :
    (handleCommandConnected (handleExtensionHello st c pid now).1 now2 r sid cmd
        params conn).2 =
      [Effect.toExt (ExtOut.route
        (generateRequestId ((handleExtensionHello st c pid now).1).requestIdCounter
          now2)
        sid "create_window" { sessionId := some sid, rest := "" })] := by
  rfl

/-! Section: concrete example states -/

namespace Ex

def extConn : ExtensionConnection :=
  { connId := 9, profileId := "default", connectedAt := 0 }

def sess1 : Session :=
  { label := "L", connId := 1, windowId := some 42, registeredAt := 0, lastSeen := 0 }

def sess2 : Session :=
  { label := "M", connId := 2, windowId := some 43, registeredAt := 0, lastSeen := 0 }

def pend1 : PendingRequest :=
  { sessionId := "s1", kind := PendingKind.forward "r1" 1 }

def base : DaemonState :=
  { clientSessions := [("s1", sess1)], windowCache := ["s1"],
    tabRouting := [(7, "s1")], pendingRequests := [],
    extensionConnection := some extConn, requestIdCounter := 3 }

def withPending : DaemonState :=
  { base with pendingRequests := [("req_4_50", pend1)] }

def twoSessions : DaemonState :=
  { base with
      clientSessions := [("s1", sess1), ("s2", sess2)],
      windowCache := ["s1", "s2"] }

def noExt : DaemonState := { base with extensionConnection := none }

def sess1Cleared : Session :=
  { label := "L", connId := 1, windowId := none, registeredAt := 0, lastSeen := 0 }

end Ex

/-! Section: claim theorems -/

/-- C1 counterexample: when the 30 s deadline of the pending request for the
client command `r1` fires, the client receives code `COMMAND_FAILED` (with
message "Request timed out"), not `REQUEST_TIMEOUT` as the claim states;
the emitted effect list is pinned exactly, so no `REQUEST_TIMEOUT` error
exists. -/
theorem C1_cex :
    (timeoutFire Ex.withPending "req_4_50").2 =
      [Effect.toClient 1
        (ClientOut.err "r1" "s1" "COMMAND_FAILED" "Request timed out")] ∧
    "COMMAND_FAILED" ≠ "REQUEST_TIMEOUT" := by
  exact ⟨rfl, by decide⟩

/-- C1 (amended): when a pending request's deadline (`REQUEST_TIMEOUT_MS`,
30 s) fires, the request is removed and rejected with the internal error
"Request timed out"; the originating client receives an error carrying the
command's `reqId` with code `COMMAND_FAILED` (for a forwarded command;
`WINDOW_CREATION_FAILED` for a timed-out lazy `create_window`), and a
`route_result` (or `error`) for that `reqId` arriving after expiry has no
observable effect. -/
theorem C1_timeout_rejects_and_drops_late (st : DaemonState) (rid : String)
    (p : PendingRequest) (h : mapLookup rid st.pendingRequests = some p) :
    REQUEST_TIMEOUT_MS = 30000 ∧
    mapLookup rid ((timeoutFire st rid).1).pendingRequests = none ∧
    (timeoutFire st rid).2 = rejectPendingEffects p "Request timed out" ∧
    (∀ now2 isErr payload,
      handleRouteResult ((timeoutFire st rid).1) now2 (some rid) isErr payload =
        ((timeoutFire st rid).1, [])) ∧
    (∀ cr cc, p.kind = PendingKind.forward cr cc →
      (timeoutFire st rid).2 =
        [Effect.toClient cc
          (ClientOut.err cr p.sessionId "COMMAND_FAILED" "Request timed out")]) := by
  have ht : timeoutFire st rid =
      ({ st with pendingRequests := mapDelete rid st.pendingRequests },
        rejectPendingEffects p "Request timed out") := by
    unfold timeoutFire
    rw [h]
  refine ⟨rfl, ?_, ?_, ?_, ?_⟩
  · rw [ht]
    exact mapLookup_mapDelete_self rid st.pendingRequests
  · rw [ht]
  · intro now2 isErr payload
    rw [ht]
    simp [handleRouteResult, mapLookup_mapDelete_self]
  · intro cr cc hk
    rw [ht]
    simp [rejectPendingEffects, hk]

/-- C1 witness: the general timeout theorem applied to a concrete state with
one pending forwarded command. -/
theorem C1_witness :
    mapLookup "req_4_50" Ex.withPending.pendingRequests = some Ex.pend1 ∧
    mapLookup "req_4_50"
      ((timeoutFire Ex.withPending "req_4_50").1).pendingRequests = none := by
  exact ⟨by decide,
    (C1_timeout_rejects_and_drops_late Ex.withPending "req_4_50" Ex.pend1
      (by decide)).2.1⟩

/-- C2 counterexample: when no extension is bound and the wait for one
fails, the client receives code `EXTENSION_NOT_CONNECTED`, not the
`AGENT_NOT_CONNECTED` the claim states. -/
theorem C2_cex :
    (wsMessage Ex.noExt 1 100 (InMsg.command "r1" "s1" "navigate" {}) false).2 =
      [Effect.toClient 1 (ClientOut.err "r1" "s1" "EXTENSION_NOT_CONNECTED"
        "Extension not connected and Chrome failed to start")] ∧
    "EXTENSION_NOT_CONNECTED" ≠ "AGENT_NOT_CONNECTED" := by
  exact ⟨rfl, by decide⟩

/-- C2 (amended): a command dispatched while no extension connection is
bound awaits `ensureExtensionConnected` (default wait
`EXTENSION_CONNECT_TIMEOUT_MS`, 15 s); when that fails the command fails,
the client receives an error with code `EXTENSION_NOT_CONNECTED`, the state
is unchanged and nothing is forwarded to the extension. -/
theorem C2_no_extension_fails_without_forward (st : DaemonState)
    (conn now : Nat) (reqId sid cmd : String) (params : Params)
    (chromeStarted connects : Bool)
    (h1 : st.extensionConnection = none)
    (h2 : ensureExtensionConnected false chromeStarted connects = false) :
    EXTENSION_CONNECT_TIMEOUT_MS = 15000 ∧
    wsMessage st conn now (InMsg.command reqId sid cmd params)
        (ensureExtensionConnected false chromeStarted connects) =
      (st, [Effect.toClient conn
        (ClientOut.err reqId sid "EXTENSION_NOT_CONNECTED"
          "Extension not connected and Chrome failed to start")]) := by
  refine ⟨rfl, ?_⟩
  simp [wsMessage, handleCommand, h1, h2]

/-- C2 witness: the theorem applied to a concrete extension-less state with
a failed Chrome start. -/
theorem C2_witness :
    ensureExtensionConnected false false false = false ∧
    wsMessage Ex.noExt 1 100 (InMsg.command "r1" "s1" "navigate" {})
        (ensureExtensionConnected false false false) =
      (Ex.noExt, [Effect.toClient 1
        (ClientOut.err "r1" "s1" "EXTENSION_NOT_CONNECTED"
          "Extension not connected and Chrome failed to start")]) := by
  exact ⟨rfl,
    (C2_no_extension_fails_without_forward Ex.noExt 1 100 "r1" "s1" "navigate"
      {} false false rfl rfl).2⟩

/-- C4: evaluation of the code at the failing input.  Session `s1` has a
bound window 42 and is in the window cache; the extension sends
`window_closed{sessionId:"s1"}`.  The session's `windowId` becomes null,
but `"s1"` remains in the window cache (`setClientWindowId(sid, null)` never
removes cache entries), so the next command for `s1` is forwarded directly
(`navigate`), with no `create_window` round-trip — contradicting the claim
and the handler's own log line "cache cleared". -/
theorem C4_windowClosed_leaves_cache :
    mapLookup "s1"
      (((wsMessage Ex.base 9 100 (InMsg.windowClosed (some "s1")) false).1)).clientSessions =
      some Ex.sess1Cleared ∧
    ((wsMessage Ex.base 9 100 (InMsg.windowClosed (some "s1")) false).1).windowCache =
      ["s1"] ∧
    (handleCommandConnected
        ((wsMessage Ex.base 9 100 (InMsg.windowClosed (some "s1")) false).1)
        100 "r9" "s1" "navigate" {} 1).2 =
      [Effect.toExt (ExtOut.route "req_4_100" "s1" "navigate"
        { sessionId := some "s1", rest := "" })] := by
  refine ⟨by decide, by decide, by decide⟩

/-- C6: while an extension connection is bound, a `hello` on a different
connection is closed with code 4000, the state is unchanged — the bound
extension stays bound and every pending request is untouched. -/
theorem C6_duplicate_hello_rejected (st : DaemonState)
    (ec : ExtensionConnection) (connId now : Nat) (pid : Option String)
    (b : Bool) (h1 : st.extensionConnection = some ec)
    (h2 : ec.connId ≠ connId) :
    wsMessage st connId now (InMsg.hello pid) b =
      (st, [Effect.closeConn connId 4000 "Extension already connected"]) ∧
    ((wsMessage st connId now (InMsg.hello pid) b).1).extensionConnection =
      some ec ∧
    ((wsMessage st connId now (InMsg.hello pid) b).1).pendingRequests =
      st.pendingRequests := by
  have hmain : wsMessage st connId now (InMsg.hello pid) b =
      (st, [Effect.closeConn connId 4000 "Extension already connected"]) := by
    simp [wsMessage, h1, h2]
  refine ⟨hmain, ?_, ?_⟩
  · rw [hmain]
    exact h1
  · rw [hmain]

/-- C6 witness: the duplicate-hello theorem at a concrete bound state. -/
theorem C6_witness :
    Ex.base.extensionConnection = some Ex.extConn ∧
    wsMessage Ex.base 13 100 (InMsg.hello none) false =
      (Ex.base, [Effect.closeConn 13 4000 "Extension already connected"]) := by
  exact ⟨rfl,
    (C6_duplicate_hello_rejected Ex.base Ex.extConn 13 100 none false rfl
      (by decide)).1⟩

/-- C3 counterexample: at the moment the extension connection closes, the
window cache is NOT emptied and the session's `windowId` is NOT nulled
(both happen only at the next `hello`), and the pending request is rejected
towards the client as `COMMAND_FAILED` ("Extension disconnected"), not
`AGENT_DISCONNECTED`. -/
theorem C3_cex :
    ((wsClose Ex.withPending 9).1).windowCache = ["s1"] ∧
    mapLookup "s1" ((wsClose Ex.withPending 9).1).clientSessions =
      some Ex.sess1 ∧
    Ex.sess1.windowId = some 42 ∧
    (wsClose Ex.withPending 9).2 =
      [Effect.toClient 1
        (ClientOut.err "r1" "s1" "COMMAND_FAILED" "Extension disconnected")] ∧
    "COMMAND_FAILED" ≠ "AGENT_DISCONNECTED" := by
  refine ⟨by decide, by decide, by decide, by decide, by decide⟩

/-- C3 (amended): when the bound extension connection closes, every pending
request existing at that moment is rejected (surfacing to its client as
`COMMAND_FAILED` / `WINDOW_CREATION_FAILED` with message "Extension
disconnected"), the pending table is cleared and the connection unbound —
all before any new extension can bind; the window cache and session
`windowId`s are NOT cleared at close, but they are cleared by
`clearAllWindowIds` inside the next `hello` before the new connection
binds. -/
theorem C3_close_rejects_all_before_rebind (st : DaemonState)
    (ec : ExtensionConnection) (h : st.extensionConnection = some ec) :
    ((wsClose st ec.connId).1).pendingRequests = [] ∧
    ((wsClose st ec.connId).1).extensionConnection = none ∧
    (wsClose st ec.connId).2 =
      (st.pendingRequests.map
        (fun p => rejectPendingEffects p.2 "Extension disconnected")).flatten ∧
    ((wsClose st ec.connId).1).clientSessions = st.clientSessions ∧
    ((wsClose st ec.connId).1).windowCache = st.windowCache ∧
    (∀ c2 pid now2,
      ((wsMessage ((wsClose st ec.connId).1) c2 now2 (InMsg.hello pid) false).1).windowCache
          = [] ∧
      ((wsMessage ((wsClose st ec.connId).1) c2 now2 (InMsg.hello pid) false).1).tabRouting
          = [] ∧
      (∀ sid s,
        mapLookup sid
          ((wsMessage ((wsClose st ec.connId).1) c2 now2 (InMsg.hello pid) false).1).clientSessions
            = some s → s.windowId = none) ∧
      ((wsMessage ((wsClose st ec.connId).1) c2 now2 (InMsg.hello pid) false).1).extensionConnection
          ≠ none) := by
  have hcl : wsClose st ec.connId =
      ({ st with pendingRequests := [], extensionConnection := none },
        (st.pendingRequests.map
          (fun p => rejectPendingEffects p.2 "Extension disconnected")).flatten) := by
    simp [wsClose, h]
  have hnone : ((wsClose st ec.connId).1).extensionConnection = none := by
    rw [hcl]
  have hmsg : ∀ c2 pid now2,
      wsMessage ((wsClose st ec.connId).1) c2 now2 (InMsg.hello pid) false =
        handleExtensionHello ((wsClose st ec.connId).1) c2 pid now2 := by
    intro c2 pid now2
    simp [wsMessage, hnone]
  refine ⟨by rw [hcl], hnone, by rw [hcl], by rw [hcl], by rw [hcl], ?_⟩
  intro c2 pid now2
  rw [hmsg]
  refine ⟨(hello_state_components _ c2 pid now2).1,
    (hello_state_components _ c2 pid now2).2.1, ?_, ?_⟩
  · intro sid s hs
    exact hello_windowId_none _ c2 pid now2 hs
  · rw [(hello_state_components _ c2 pid now2).2.2.2]
    simp

/-- C3 witness: the close theorem applied to a concrete state with one
pending request and a bound extension (connection 9). -/
theorem C3_witness :
    Ex.withPending.extensionConnection = some Ex.extConn ∧
    ((wsClose Ex.withPending 9).1).pendingRequests = [] := by
  exact ⟨rfl,
    (C3_close_rejects_all_before_rebind Ex.withPending Ex.extConn rfl).1⟩

/-- C5: on every extension `hello`, `clearAllWindowIds` runs: afterwards the
window cache and the tab-routing map are empty, every registered session's
`windowId` is null, and the next command of any session performs a
`create_window` round-trip (a `route` whose command is `create_window`)
before the command itself can be forwarded. -/
theorem C5_hello_clears_and_recreates (st : DaemonState) (c : Nat)
    (pid : Option String) (now : Nat) :
    ((handleExtensionHello st c pid now).1).windowCache = [] ∧
    ((handleExtensionHello st c pid now).1).tabRouting = [] ∧
    (∀ sid s,
      mapLookup sid ((handleExtensionHello st c pid now).1).clientSessions =
        some s → s.windowId = none) ∧
    (∀ now2 r sid cmd params conn,
      (handleCommandConnected ((handleExtensionHello st c pid now).1) now2 r sid
          cmd params conn).2 =
        [Effect.toExt (ExtOut.route
          (generateRequestId
            ((handleExtensionHello st c pid now).1).requestIdCounter now2)
          sid "create_window" { sessionId := some sid, rest := "" })]) := by
  refine ⟨rfl, rfl, ?_, ?_⟩
  · intro sid s hs
    exact hello_windowId_none st c pid now hs
  · intro now2 r sid cmd params conn
    exact hello_next_command_creates st c pid now now2 r sid cmd params conn

/-- C5 witness: after a `hello` on a state where `s1` had window 42, the
looked-up session has a null `windowId`. -/
theorem C5_witness :
    mapLookup "s1"
      ((handleExtensionHello Ex.base 9 none 100).1).clientSessions =
      some Ex.sess1Cleared ∧
    Ex.sess1Cleared.windowId = none := by
  exact ⟨by decide,
    (C5_hello_clears_and_recreates Ex.base 9 none 100).2.2.1 "s1"
      Ex.sess1Cleared (by decide)⟩

/-- C7 counterexample: unregistering `s1` (which has a pending request
`req_4_50`) enqueues `close_window` and rebroadcasts, but the pending
request survives untouched and no rejection is delivered — the effect list
is pinned exactly. -/
theorem C7_cex :
    mapLookup "req_4_50"
      ((wsMessage Ex.withPending 1 100 (InMsg.unregister "s1") false).1).pendingRequests =
      some Ex.pend1 ∧
    (wsMessage Ex.withPending 1 100 (InMsg.unregister "s1") false).2 =
      [Effect.toExt (ExtOut.route "req_4_100" "s1" "close_window"
        { sessionId := some "s1", rest := "" }),
       Effect.toExt (ExtOut.sessionsMsg [] [])] := by
  refine ⟨by decide, by decide⟩

/-- C7 (amended): `Unregister(sessionId)` on a session with a (truthy) bound
window while an extension is bound enqueues a fire-and-forget
`close_window` route, removes the session from the registry and the window
cache, purges every tab route referencing it and broadcasts the updated
session list; the session's pending requests are NOT rejected — they stay
in the pending table until their own timeouts fire. -/
theorem C7_unregister (st : DaemonState) (sid : String) (s : Session)
    (now : Nat) (ec : ExtensionConnection)
    (h1 : mapLookup sid st.clientSessions = some s)
    (h2 : windowIdTruthy s.windowId = true)
    (h3 : st.extensionConnection = some ec) :
    mapLookup sid ((handleUnregister st sid now).1).clientSessions = none ∧
    ((handleUnregister st sid now).1).tabRouting.all (fun p => p.2 ≠ sid) = true ∧
    ((handleUnregister st sid now).1).windowCache.all (fun x => x ≠ sid) = true ∧
    ((handleUnregister st sid now).1).pendingRequests = st.pendingRequests ∧
    (handleUnregister st sid now).2 =
      [Effect.toExt (ExtOut.route (generateRequestId st.requestIdCounter now) sid
          "close_window" { sessionId := some sid, rest := "" }),
       Effect.toExt (ExtOut.sessionsMsg
          (getSessionList ((handleUnregister st sid now).1))
          ((handleUnregister st sid now).1).tabRouting)] := by
  have hstep : handleUnregister st sid now =
      (unregisterClient { st with requestIdCounter := st.requestIdCounter + 1 } sid,
        Effect.toExt (ExtOut.route (generateRequestId st.requestIdCounter now) sid
            "close_window" { sessionId := some sid, rest := "" })
          :: broadcastSessionsToExtension
              (unregisterClient
                { st with requestIdCounter := st.requestIdCounter + 1 } sid)) := by
    simp [handleUnregister, h1, h2, h3, sendToExtension]
  have hlift : mapLookup sid
      ({ st with requestIdCounter := st.requestIdCounter + 1 } : DaemonState).clientSessions =
      some s := h1
  have hext2 : (unregisterClient
      { st with requestIdCounter := st.requestIdCounter + 1 } sid).extensionConnection =
      some ec := by
    unfold unregisterClient
    cases hx : mapLookup sid
        ({ st with requestIdCounter := st.requestIdCounter + 1 } : DaemonState).clientSessions <;>
      simpa using h3
  refine ⟨?_, ?_, ?_, ?_, ?_⟩
  · rw [hstep]
    exact unregisterClient_lookup_self _ sid
  · rw [hstep]
    exact unregisterClient_tab_self _ (by rw [hlift]; rfl)
  · rw [hstep]
    unfold unregisterClient
    rw [hlift]
    exact all_filter_self _ _
  · rw [hstep]
    exact unregisterClient_pendingRequests _ sid
  · rw [hstep]
    simp [broadcastSessionsToExtension, hext2]

/-- C7 witness: the unregister theorem at the concrete state with pending
request `req_4_50`. -/
theorem C7_witness :
    mapLookup "s1" Ex.withPending.clientSessions = some Ex.sess1 ∧
    windowIdTruthy Ex.sess1.windowId = true ∧
    ((handleUnregister Ex.withPending "s1" 100).1).pendingRequests =
      Ex.withPending.pendingRequests := by
  exact ⟨by decide, by decide,
    (C7_unregister Ex.withPending "s1" Ex.sess1 100 Ex.extConn (by decide)
      (by decide) rfl).2.2.2.1⟩

/-- C8 counterexample: the sweeper at `now = 70000` removes session `s1`
(`lastSeen = 0`, older than 60 s) but emits no message at all — no
`CLIENT_DISCONNECTED` rejection of its pending request (which survives in
the pending table) and no `sessions` broadcast. -/
theorem C8_cex :
    (staleSweep Ex.withPending 70000).2 = [] ∧
    ((staleSweep Ex.withPending 70000).1).pendingRequests =
      [("req_4_50", Ex.pend1)] ∧
    mapLookup "s1" ((staleSweep Ex.withPending 70000).1).clientSessions =
      none := by
  refine ⟨rfl, by decide, by decide⟩

/-- C8 (amended): the background sweeper runs at
`CLIENT_KEEPALIVE_TIMEOUT_MS / 2` (30 s) intervals and unregisters every
session whose `lastSeen` is older than `CLIENT_KEEPALIVE_TIMEOUT_MS`
(60 s), removing the tab routes referencing it (and, via
`unregisterClient`, its window-cache entry); it does NOT reject the
session's pending requests (they are left in the pending table) and does
NOT broadcast an updated session list (the sweep emits no effects). -/
theorem C8_sweeper (st : DaemonState) (now : Nat) (sid : String) (s : Session)
    (h1 : mapLookup sid st.clientSessions = some s)
    (h2 : now - s.lastSeen > CLIENT_KEEPALIVE_TIMEOUT_MS)
    (h3 : ∀ s', (sid, s') ∈ st.clientSessions → s' = s) :
    CLIENT_KEEPALIVE_TIMEOUT_MS = 60000 ∧
    staleCheckIntervalMs = 30000 ∧
    mapLookup sid ((staleSweep st now).1).clientSessions = none ∧
    ((staleSweep st now).1).tabRouting.all (fun p => p.2 ≠ sid) = true ∧
    ((staleSweep st now).1).windowCache.all (fun c => c ≠ sid) = true ∧
    ((staleSweep st now).1).pendingRequests = st.pendingRequests ∧
    (staleSweep st now).2 = [] := by
  refine ⟨rfl, rfl, ?_, ?_, ?_, ?_, rfl⟩
  · exact sweepFold_removes now st.clientSessions st (mapLookup_mem h1) h2
  · exact sweepFold_tab_removes now st.clientSessions st (mapLookup_mem h1) h2
      h3 (by rw [h1]; rfl)
  · exact sweepFold_cache_removes now st.clientSessions st (mapLookup_mem h1) h2
      h3 (by rw [h1]; rfl)
  · exact sweepFold_pendingRequests now st.clientSessions st

/-- C8 witness: the sweeper theorem at the concrete stale state. -/
theorem C8_witness :
    mapLookup "s1" Ex.withPending.clientSessions = some Ex.sess1 ∧
    70000 - Ex.sess1.lastSeen > CLIENT_KEEPALIVE_TIMEOUT_MS ∧
    mapLookup "s1" ((staleSweep Ex.withPending 70000).1).clientSessions =
      none := by
  refine ⟨by decide, by decide, ?_⟩
  refine (C8_sweeper Ex.withPending 70000 "s1" Ex.sess1 (by decide) (by decide)
    ?_).2.2.1
  intro s' hs'
  simp only [Ex.withPending, Ex.base, List.mem_singleton] at hs'
  exact congrArg Prod.snd hs'

/-- Every `route` emitted by `sendCommandToExtension` carries the session id
it was called with, both at top level and injected into `params`. -/
theorem sendCommand_route_session (st : DaemonState) (now : Nat)
    (cmd : String) (params : Params) (sid : String) (kind : PendingKind) :
    ∀ e ∈ (sendCommandToExtension st now cmd params sid kind).2,
      ∀ rid s c p, e = Effect.toExt (ExtOut.route rid s c p) →
        s = sid ∧ p.sessionId = some sid := by
  intro e he rid s c p heq
  cases hext : st.extensionConnection with
  | none =>
      simp only [sendCommandToExtension, hext] at he
      rw [heq] at he
      cases kind <;> simp [rejectPendingEffects] at he
  | some ec =>
      simp only [sendCommandToExtension, hext, List.mem_singleton] at he
      rw [heq] at he
      simp only [Effect.toExt.injEq, ExtOut.route.injEq] at he
      obtain ⟨h1, h2, h3, h4⟩ := he
      exact ⟨h2, by rw [h4]⟩

/-- Both branches of the connected command body forward under the message's
session id. -/
theorem handleCommandConnected_route_session (st : DaemonState) (now : Nat)
    (reqId sid cmd : String) (params : Params) (conn : Nat) :
    ∀ e ∈ (handleCommandConnected st now reqId sid cmd params conn).2,
      ∀ rid s c p, e = Effect.toExt (ExtOut.route rid s c p) →
        s = sid ∧ p.sessionId = some sid := by
  intro e he
  unfold handleCommandConnected at he
  cases hc : st.windowCache.contains sid
  · rw [hc] at he
    simp only [Bool.false_eq_true, if_false] at he
    exact sendCommand_route_session st now "create_window"
      { sessionId := some sid } sid _ e he
  · rw [hc] at he
    simp only [if_true] at he
    exact sendCommand_route_session st now cmd params sid _ e he

/-- C9 counterexample: connection 1 is the connection of session `s1`, yet a
command message carrying `sessionId:"s2"` received on connection 1 is
forwarded to the extension under `s2` — the daemon trusts the message's
`sessionId` and never checks the sending connection. -/
theorem C9_cex :
    (mapLookup "s1" Ex.twoSessions.clientSessions).map Session.connId =
      some 1 ∧
    (mapLookup "s2" Ex.twoSessions.clientSessions).map Session.connId =
      some 2 ∧
    (wsMessage Ex.twoSessions 1 100 (InMsg.command "r1" "s2" "get_tabs" {})
        false).2 =
      [Effect.toExt (ExtOut.route "req_4_100" "s2" "get_tabs"
        { sessionId := some "s2", rest := "" })] ∧
    "s2" ≠ "s1" := by
  refine ⟨by decide, by decide, by decide, by decide⟩

/-- C9 (amended): the daemon does not associate connections with sessions
when dispatching commands: every `route` it emits for a `command` message
carries exactly the `sessionId` field of that message (top level and
injected into `params`), regardless of which connection delivered the
message.  Isolation between sessions therefore holds only against clients
that state their own `sessionId` truthfully. -/
theorem C9_route_uses_message_session (st : DaemonState) (connId now : Nat)
    (reqId sid cmd : String) (params : Params) (b : Bool) :
    ∀ e ∈ (wsMessage st connId now (InMsg.command reqId sid cmd params) b).2,
      ∀ rid s c p, e = Effect.toExt (ExtOut.route rid s c p) →
        s = sid ∧ p.sessionId = some sid := by
  intro e he
  have hw : wsMessage st connId now (InMsg.command reqId sid cmd params) b =
      handleCommand st now reqId sid cmd params connId b := rfl
  rw [hw] at he
  unfold handleCommand at he
  cases hext : st.extensionConnection with
  | some ec =>
      rw [hext] at he
      exact handleCommandConnected_route_session st now reqId sid cmd params
        connId e he
  | none =>
      rw [hext] at he
      cases b
      · simp only [Bool.false_eq_true, if_false, List.mem_singleton] at he
        intro rid s c p heq
        rw [heq] at he
        simp at he
      · simp only [if_true] at he
        exact handleCommandConnected_route_session st now reqId sid cmd params
          connId e he

/-- C9 witness: the amended theorem applied to the concrete cross-session
route of `C9_cex`'s scenario. -/
theorem C9_witness :
    (Effect.toExt (ExtOut.route "req_4_100" "s2" "get_tabs"
        { sessionId := some "s2", rest := "" }) ∈
      (wsMessage Ex.twoSessions 1 100 (InMsg.command "r1" "s2" "get_tabs" {})
        false).2) ∧
    ("s2" = "s2" ∧
      Params.sessionId { sessionId := some "s2", rest := "" } = some "s2") := by
  refine ⟨by decide, ?_⟩
  exact C9_route_uses_message_session Ex.twoSessions 1 100 "r1" "s2" "get_tabs"
    {} false _ (by decide) "req_4_100" "s2" "get_tabs"
    { sessionId := some "s2", rest := "" } rfl

/-- C10: reply correlation is by `reqId` alone and ignores the delivering
connection — `route_result`/`error` messages from any connection id produce
identical results; a found pending request is removed before its
continuation runs, the message's payload resolves (or its message rejects)
it, and a second delivery of the same `reqId` is a no-op. -/
theorem C10_correlation_by_reqId (st : DaemonState) (rid : String)
    (p : PendingRequest) (payload : ExtPayload)
    (h : mapLookup rid st.pendingRequests = some p) :
    (∀ cA cB now b b',
      wsMessage st cA now (InMsg.routeResult (some rid) payload) b =
        wsMessage st cB now (InMsg.routeResult (some rid) payload) b') ∧
    (∀ cA cB now b b',
      wsMessage st cA now (InMsg.errorMsg (some rid) payload) b =
        wsMessage st cB now (InMsg.errorMsg (some rid) payload) b') ∧
    (∀ now, handleRouteResult st now (some rid) true payload =
      ({ st with pendingRequests := mapDelete rid st.pendingRequests },
        rejectPendingEffects p (payload.message.getD "Unknown error"))) ∧
    (∀ now cr cc, p.kind = PendingKind.forward cr cc →
      handleRouteResult st now (some rid) false payload =
        ({ st with pendingRequests := mapDelete rid st.pendingRequests },
          [Effect.toClient cc (ClientOut.response cr p.sessionId payload)])) ∧
    (∀ now now2 isErr2 payload2,
      handleRouteResult ((handleRouteResult st now (some rid) true payload).1)
          now2 (some rid) isErr2 payload2 =
        ((handleRouteResult st now (some rid) true payload).1, [])) ∧
    (∀ now now2 cr cc isErr2 payload2, p.kind = PendingKind.forward cr cc →
      handleRouteResult ((handleRouteResult st now (some rid) false payload).1)
          now2 (some rid) isErr2 payload2 =
        ((handleRouteResult st now (some rid) false payload).1, [])) := by
  have herr : ∀ now, handleRouteResult st now (some rid) true payload =
      ({ st with pendingRequests := mapDelete rid st.pendingRequests },
        rejectPendingEffects p (payload.message.getD "Unknown error")) := by
    intro now
    simp [handleRouteResult, h]
  have hres : ∀ now cr cc, p.kind = PendingKind.forward cr cc →
      handleRouteResult st now (some rid) false payload =
        ({ st with pendingRequests := mapDelete rid st.pendingRequests },
          [Effect.toClient cc (ClientOut.response cr p.sessionId payload)]) := by
    intro now cr cc hk
    simp [handleRouteResult, h, resolvePending, hk]
  refine ⟨fun _ _ _ _ _ => rfl, fun _ _ _ _ _ => rfl, herr, hres, ?_, ?_⟩
  · intro now now2 isErr2 payload2
    rw [herr now]
    simp [handleRouteResult, mapLookup_mapDelete_self]
  · intro now now2 cr cc isErr2 payload2 hk
    rw [hres now cr cc hk]
    simp [handleRouteResult, mapLookup_mapDelete_self]

/-- C10 witness: the correlation theorem at a concrete state; delivery of
the `route_result` from the client's own connection equals delivery from
the extension's connection. -/
theorem C10_witness :
    mapLookup "req_4_50" Ex.withPending.pendingRequests = some Ex.pend1 ∧
    wsMessage Ex.withPending 1 200
        (InMsg.routeResult (some "req_4_50") { data := "ok" }) false =
      wsMessage Ex.withPending 9 200
        (InMsg.routeResult (some "req_4_50") { data := "ok" }) false := by
  exact ⟨by decide,
    (C10_correlation_by_reqId Ex.withPending "req_4_50" Ex.pend1
      { data := "ok" } (by decide)).1 1 9 200 false false⟩

end Helm
